import Mathlib

/-!
# Verification of the chainlink connectivity / event-ingestion core

Shallow embedding of the Go sources:
* `core/services/directrequestocr/drlistener.go` — event listener,
  `ExtractRawBytes`, `handleOracleRequest`, `processOracleEvents`;
* `core/chains/evm/chain_set.go` — chain registry (`Get`, `Default`,
  `Configure`, `NewChainSet`);
* the send-only node health state machine (`setState`, `verifyLoop`).

Bytes are modelled as `List Nat` (each element a byte value), machine maps as
association lists, and fallible Go calls as `Except`/`Option` values.
-/

namespace Chainlink

/-! ## ExtractRawBytes (drlistener.go)

`ExtractRawBytes` strips surrounding double quotes, accepts the empty content,
requires a content of even length at least 4, and then hex-parses it via
`utils.TryParseHex`. -/

/-- Value of one hexadecimal digit byte (`encoding/hex` accepts both cases). -/
def hexVal (c : Nat) : Option Nat :=
  if 48 ≤ c ∧ c ≤ 57 then some (c - 48)
  else if 97 ≤ c ∧ c ≤ 102 then some (c - 87)
  else if 65 ≤ c ∧ c ≤ 70 then some (c - 55)
  else none

/-- Hex-decode a byte sequence two digits at a time; odd length or a
non-digit byte is a failure (`encoding/hex.DecodeString`). -/
def hexDecode : List Nat → Option (List Nat)
  | [] => some []
  | [_] => none
  | hi :: lo :: rest =>
    match hexVal hi, hexVal lo, hexDecode rest with
    | some a, some b, some r => some ((16 * a + b) :: r)
    | _, _, _ => none

/-- Modelled from the spec: `utils.TryParseHex` (missing from src; the spec
requires "a quoted, even-length hexadecimal string prefixed `0x`") parses a
`0x`-prefixed even-length hex string into its bytes; any other form is a
decode error. Byte 48 is the character zero and byte 120 is the letter x. -/
def TryParseHex (s : List Nat) : Except String (List Nat) :=
  if s.take 2 = [48, 120] then
    match hexDecode (s.drop 2) with
    | some b => Except.ok b
    | none => Except.error "invalid hex"
  else Except.error "hex string must have 0x prefix"

/-- `ExtractRawBytes` from drlistener.go. Byte 34 is the double-quote
character. -/
def ExtractRawBytes (input : List Nat) : Except String (List Nat) :=
  if input.length < 2 ∨ input.head? ≠ some 34 ∨ input.getLast? ≠ some 34 then
    Except.error "unable to decode input"
  else
    let inner := (input.drop 1).dropLast
    if inner.length = 0 then Except.ok []
    else if inner.length < 4 ∨ inner.length % 2 ≠ 0 then
      Except.error "input is not a valid, non-empty hex string of even length"
    else TryParseHex inner

/-- Byte sequence of a string (ASCII inputs only are used below). -/
def strBytes (s : String) : List Nat := s.toList.map Char.toNat

example : ExtractRawBytes (strBytes "\"\"") = Except.ok [] := rfl
example : ExtractRawBytes (strBytes "\"0xabcd\"") = Except.ok [0xAB, 0xCD] := rfl
example : ExtractRawBytes (strBytes "\"0xab\"") = Except.ok [0xAB] := rfl
example : (ExtractRawBytes (strBytes "0xabcd")).isOk = false := by decide

/-! ## handleOracleRequest — post-pipeline result handling (drlistener.go)

After a successful pipeline run, `handleOracleRequest` looks up the
`parse_result` and `parse_error` task outputs by run id and task name,
extracts their raw bytes, and updates the Request row. The part of the
handler that runs after the pipeline succeeded is embedded as a function of
the two lookup results. -/

/-- Error classification stored with `SetError` (drlistener orm). -/
inductive ErrorKind where
  | NODE_EXCEPTION
  | USER_EXCEPTION
  deriving DecidableEq, Repr

/-- Request lifecycle states (spec §3 / §4.3). -/
inductive RequestState where
  | pending
  | confirmed
  | resultSet
  | errorSet (kind : ErrorKind)
  | timedOut
  deriving DecidableEq, Repr

/-- What the tail of `handleOracleRequest` does to the Request row:
either `SetError`, `SetResult`, or a bare log-and-return with no update. -/
inductive HandleOutcome where
  | setError (kind : ErrorKind) (payload : List Nat)
  | setResult (payload : List Nat)
  | abortNoUpdate (msg : String)
  deriving DecidableEq, Repr

/-- The post-pipeline tail of `handleOracleRequest` (drlistener.go lines
242-278), as a function of the two `FindTaskResultByRunIDAndTaskName`
lookups (for `parse_result` and `parse_error` respectively). A lookup error
leads to `SetError NODE_EXCEPTION`; an `ExtractRawBytes` failure logs the
extraction error and returns without touching the Request; a non-empty
decoded error payload leads to `SetError USER_EXCEPTION`, else `SetResult`. -/
def handlePipelineOutputs (findResult : Except String (List Nat))
    (findError : Except String (List Nat)) : HandleOutcome :=
  match findResult with
  | Except.error e => HandleOutcome.setError ErrorKind.NODE_EXCEPTION (strBytes e)
  | Except.ok rawResult =>
    match ExtractRawBytes rawResult with
    | Except.error e => HandleOutcome.abortNoUpdate e
    | Except.ok computationResult =>
      match findError with
      | Except.error e => HandleOutcome.setError ErrorKind.NODE_EXCEPTION (strBytes e)
      | Except.ok rawError =>
        match ExtractRawBytes rawError with
        | Except.error e => HandleOutcome.abortNoUpdate e
        | Except.ok computationError =>
          if computationError.length ≠ 0 then
            HandleOutcome.setError ErrorKind.USER_EXCEPTION computationError
          else
            HandleOutcome.setResult computationResult

/-- Effect of the handler's outcome on the Request's lifecycle state. -/
def applyOutcome (st : RequestState) : HandleOutcome → RequestState
  | HandleOutcome.setError k _ => RequestState.errorSet k
  | HandleOutcome.setResult _ => RequestState.resultSet
  | HandleOutcome.abortNoUpdate _ => st

/-! ## processOracleEvents — dispatch loop (drlistener.go)

The dispatch loop drains broadcasts one at a time. For each drained record it
checks the stop channel, then asks the log broadcaster whether the record was
already consumed (an error or `true` skips the record), then dispatches on the
decoded log type. The embedding below models the drain of a list of records
with the stop channel not signalled; a spawned handler is run to completion
before the next record is drained (the schedule relevant to redelivery, where
a prior handler has already marked the log consumed). -/

/-- Decoded log types recognised by the listener. -/
inductive DecodedLog where
  | request (reqId : Nat)
  | response (reqId : Nat)
  | unknown
  deriving DecidableEq, Repr

/-- A log broadcast: its identity for the consumed-marker store and its
decoded payload (`none` models a nil decoded log). -/
structure Broadcast where
  bid : Nat
  decoded : Option DecodedLog
  deriving DecidableEq, Repr

/-- The external consumed-marker store: which broadcast identities are marked
consumed, and for which identities the `WasAlreadyConsumed` query itself
fails. -/
structure ConsumedStore where
  consumed : List Nat
  failing : List Nat
  deriving DecidableEq, Repr

/-- `logBroadcaster.WasAlreadyConsumed`: may fail, else reports membership of
the consumed set. -/
def WasAlreadyConsumed (st : ConsumedStore) (b : Broadcast) : Except Unit Bool :=
  if b.bid ∈ st.failing then Except.error () else Except.ok (b.bid ∈ st.consumed)

/-- `logBroadcaster.MarkConsumed` records the broadcast in the consumed set. -/
def MarkConsumed (st : ConsumedStore) (b : Broadcast) : ConsumedStore :=
  { st with consumed := st.consumed ++ [b.bid] }

/-- Persistence-visible listener state: the marker store, created Request
rows, confirmed request ids, and the number of pipeline `Run` invocations. -/
structure ListenerState where
  store : ConsumedStore
  requests : List Nat
  confirmedIds : List Nat
  pipelineRuns : Nat
  deriving DecidableEq, Repr

/-- Outcomes of the external collaborators for a handler invocation, keyed by
request id: whether `CreateRequest` succeeds and whether the pipeline run
succeeds. -/
structure HandlerEnv where
  createOk : Nat → Bool
  pipelineOk : Nat → Bool

/-- `handleOracleRequest` up to its persistence effects: `CreateRequest`
first (failure aborts with nothing persisted), then `pipelineRunner.Run`;
on a successful run the `onCommit` callback marks the log consumed
transactionally with the run. -/
def handleOracleRequestModel (env : HandlerEnv) (s : ListenerState)
    (reqId : Nat) (lb : Broadcast) : ListenerState :=
  if env.createOk reqId = false then s
  else
    let s1 := { s with requests := s.requests ++ [reqId] }
    if env.pipelineOk reqId then
      { s1 with pipelineRuns := s1.pipelineRuns + 1, store := MarkConsumed s1.store lb }
    else
      { s1 with pipelineRuns := s1.pipelineRuns + 1 }

/-- What the dispatch loop did with one drained record. -/
inductive DispatchAction where
  | skippedStoreError
  | skippedConsumed
  | skippedNil
  | spawnedRequest (reqId : Nat)
  | spawnedResponse (reqId : Nat)
  | skippedUnknown
  deriving DecidableEq, Repr

/-- One iteration of the inner drain loop of `processOracleEvents`
(drlistener.go lines 142-169): consumed-marker check first (error or `true`
skips with no handler), then nil check, then dispatch by decoded type. -/
def processEvent (env : HandlerEnv) (s : ListenerState) (lb : Broadcast) :
    DispatchAction × ListenerState :=
  match WasAlreadyConsumed s.store lb with
  | Except.error _ => (DispatchAction.skippedStoreError, s)
  | Except.ok true => (DispatchAction.skippedConsumed, s)
  | Except.ok false =>
    match lb.decoded with
    | none => (DispatchAction.skippedNil, s)
    | some (DecodedLog.request rid) =>
      (DispatchAction.spawnedRequest rid, handleOracleRequestModel env s rid lb)
    | some (DecodedLog.response rid) =>
      (DispatchAction.spawnedResponse rid, { s with confirmedIds := s.confirmedIds ++ [rid] })
    | some DecodedLog.unknown => (DispatchAction.skippedUnknown, s)

/-- Drain a list of records in order (stop channel not signalled). -/
def processEvents (env : HandlerEnv) (s : ListenerState) :
    List Broadcast → List DispatchAction × ListenerState
  | [] => ([], s)
  | lb :: rest =>
    let step := processEvent env s lb
    let next := processEvents env step.2 rest
    (step.1 :: next.1, next.2)

/-! ## Chain Set (core/chains/evm/chain_set.go)

The registry maps the string form of a network identifier to the constructed
chain object. `Get` takes an optional (possibly nil) id; `Default` checks
emptiness, then the default id; `Configure` updates the persisted
configuration first and then reconciles the registry; `NewChainSet` loads a
list of configurations, skipping `ErrNoPrimaryNode` chains with a warning. -/

/-- A constructed chain object, identified by its network identifier. -/
structure ChainObj where
  id : Nat
  deriving DecidableEq, Repr

/-- Errors returned by `Get` / `Default`. -/
inductive ChainSetError where
  | NotFound (id : Nat)
  | NoChains
  | NoDefault
  deriving DecidableEq, Repr

/-- The chain registry: designated default identifier and the map from
identifier string to chain, kept as an association list. -/
structure ChainSet where
  defaultID : Option Nat
  chains : List (String × ChainObj)
  deriving DecidableEq, Repr

/-- The non-nil branch of `Get`: map lookup by `id.String()`, `NotFound` when
absent. -/
def getByID (cs : ChainSet) (i : Nat) : Except ChainSetError ChainObj :=
  match cs.chains.lookup (toString i) with
  | some c => Except.ok c
  | none => Except.error (ChainSetError.NotFound i)

/-- `chainSet.Default`: `NoChains` on an empty registry, `NoDefault` when no
default id is configured, else `Get(defaultID)` (which with a non-nil default
id is the map lookup). -/
def ChainSet.Default (cs : ChainSet) : Except ChainSetError ChainObj :=
  if cs.chains.length = 0 then Except.error ChainSetError.NoChains
  else
    match cs.defaultID with
    | none => Except.error ChainSetError.NoDefault
    | some d => getByID cs d

/-- `chainSet.Get` with a possibly-nil id: nil delegates to `Default`. -/
def ChainSet.Get (cs : ChainSet) (id : Option Nat) : Except ChainSetError ChainObj :=
  match id with
  | none => cs.Default
  | some i => getByID cs i

/-- One chain configuration row as returned by the ORM, together with the
conditions that decide how its construction goes. -/
structure DBChain where
  id : Nat
  hasPrimaryNode : Bool
  constructErr : Option String
  deriving DecidableEq, Repr

/-- Chain construction failures: the non-fatal `ErrNoPrimaryNode`, or any
other (fatal) error. -/
inductive ChainConstructError where
  | noPrimaryNode
  | other (msg : String)
  deriving DecidableEq, Repr

/-- Modelled from the spec: `newChain` (chain.go, missing from src)
constructs the Chain for one configuration; "a Chain whose node list lacks
any node capable of acting as primary fails to construct with a non-fatal
`NoPrimaryNode` condition", producing no chain object (nil); other
construction errors are fatal. -/
def newChain (db : DBChain) : Except ChainConstructError ChainObj :=
  match db.constructErr with
  | some m => Except.error (ChainConstructError.other m)
  | none =>
    if db.hasPrimaryNode then Except.ok { id := db.id }
    else Except.error ChainConstructError.noPrimaryNode

/-- Result of `NewChainSet`: a fatal duplicate-identifier error, or the built
registry together with the aggregated (multierr) construction errors. -/
inductive LoadResult where
  | dupError (cid : String)
  | made (cs : ChainSet) (errs : List String)
  deriving DecidableEq, Repr

/-- The loading loop of `NewChainSet`: `ErrNoPrimaryNode` chains are skipped
with a warning; other construction errors are aggregated and the chain
skipped; a duplicate identifier among successfully constructed chains aborts
with a fatal error; otherwise the chain is inserted under its id string. -/
def loadChainsAux (defaultID : Option Nat) (acc : List (String × ChainObj))
    (errs : List String) : List DBChain → LoadResult
  | [] => LoadResult.made { defaultID := defaultID, chains := acc } errs
  | db :: rest =>
    let cid := toString db.id
    match newChain db with
    | Except.error ChainConstructError.noPrimaryNode =>
      loadChainsAux defaultID acc errs rest
    | Except.error (ChainConstructError.other m) =>
      loadChainsAux defaultID acc (errs ++ [m]) rest
    | Except.ok c =>
      if (acc.lookup cid).isSome then LoadResult.dupError cid
      else loadChainsAux defaultID (acc ++ [(cid, c)]) errs rest

/-- `NewChainSet` (chain_set.go lines 187-212). -/
def NewChainSet (defaultID : Option Nat) (dbchains : List DBChain) : LoadResult :=
  loadChainsAux defaultID [] [] dbchains

/-- How a `Configure` call ends. `nilChainStart` marks the execution point
where the `ErrNoPrimaryNode` warning has been logged but control has fallen
through to `chain.Start()` with the nil chain — a nil-pointer method call
(and, were it to return, the nil chain would be inserted into the registry). -/
inductive ConfigureOutcome where
  | ok
  | dbError
  | fatal (msg : String)
  | nilChainStart (cid : String)
  | startFailed (cid : String)
  deriving DecidableEq, Repr

/-- Result of `Configure`: the reconciled registry, the chains whose `Close`
was invoked (one list entry per invocation), whether the persisted
configuration was updated, and the outcome. -/
structure ConfigureResult where
  cs : ChainSet
  closedChains : List ChainObj
  dbUpdated : Bool
  outcome : ConfigureOutcome
  deriving DecidableEq, Repr

/-- Registry removal, Go `delete(cll.chains, cid)`. -/
def removeChain (cs : ChainSet) (cid : String) : ChainSet :=
  { cs with chains := cs.chains.filter (fun kv => kv.1 != cid) }

/-- `chainSet.Configure` (chain_set.go lines 98-138). `updateOk` and
`nodesOk` are the outcomes of the two ORM calls made first; `startOk` is the
outcome of `chain.Start()` for a successfully constructed chain. Present and
disabled removes and closes the chain; absent and enabled constructs, starts
and inserts (with the `ErrNoPrimaryNode` fall-through modelled by
`nilChainStart`); the remaining combinations leave the registry unchanged. -/
def Configure (cs : ChainSet) (id : Nat) (enabled : Bool) (db : DBChain)
    (updateOk : Bool) (nodesOk : Bool) (startOk : Bool) : ConfigureResult :=
  if ¬ updateOk then
    { cs := cs, closedChains := [], dbUpdated := false, outcome := ConfigureOutcome.dbError }
  else if ¬ nodesOk then
    { cs := cs, closedChains := [], dbUpdated := true, outcome := ConfigureOutcome.dbError }
  else
    let cid := toString id
    match getByID cs id, enabled with
    | Except.ok chain, false =>
      { cs := removeChain cs cid, closedChains := [chain], dbUpdated := true,
        outcome := ConfigureOutcome.ok }
    | Except.error _, true =>
      match newChain db with
      | Except.error ChainConstructError.noPrimaryNode =>
        { cs := cs, closedChains := [], dbUpdated := true,
          outcome := ConfigureOutcome.nilChainStart cid }
      | Except.error (ChainConstructError.other m) =>
        { cs := cs, closedChains := [], dbUpdated := true,
          outcome := ConfigureOutcome.fatal m }
      | Except.ok c =>
        if startOk then
          { cs := { cs with chains := cs.chains ++ [(cid, c)] }, closedChains := [],
            dbUpdated := true, outcome := ConfigureOutcome.ok }
        else
          { cs := cs, closedChains := [], dbUpdated := true,
            outcome := ConfigureOutcome.startFailed cid }
    | Except.ok _, true =>
      { cs := cs, closedChains := [], dbUpdated := true, outcome := ConfigureOutcome.ok }
    | Except.error _, false =>
      { cs := cs, closedChains := [], dbUpdated := true, outcome := ConfigureOutcome.ok }

/-- Registry well-formedness: every key is the string form of its chain's
identifier (spec §3 Chain Set invariant). -/
def ChainSet.WF (cs : ChainSet) : Prop :=
  ∀ kv ∈ cs.chains, kv.1 = toString kv.2.id

/-! ## Send-only node health state machine (sendonly node, src/unnamed)

`SendOnlyNodeState` and the raw `setState` assignment are in part_000;
`verifyLoop` is in part_001. The loop waits on a backoff timer or the stop
channel; on a tick it queries the endpoint's chain id: a query error changes
nothing, a mismatch sets `InvalidChainID` under `IfStarted` and continues, a
match sets `Alive` under `IfStarted` and returns. The loop is embedded as a
function over a finite list of wait-point events. -/

/-- The node health states of part_000. -/
inductive SendOnlyNodeState where
  | Undialed
  | Dialed
  | InvalidChainID
  | Alive
  | Unusable
  | Closed
  deriving DecidableEq, Repr

/-- One event observed at a wait point of `verifyLoop`: the stop channel
fired, or the backoff timer elapsed and the `ChainID` query returned an
error (`none`) or a reported identity. -/
inductive VerifyEvent where
  | stop
  | tick (reported : Option Nat)
  deriving DecidableEq, Repr

/-- The node fields `verifyLoop` touches: the health state (written through
`setState`) and the `StartStopOnce` lifecycle flag consulted by `IfStarted`. -/
structure NodeModel where
  state : SendOnlyNodeState
  started : Bool
  deriving DecidableEq, Repr

/-- Whether the loop iteration falls through to the next iteration or
returns. -/
inductive LoopOutcome where
  | continued
  | exited
  deriving DecidableEq, Repr

/-- One iteration of `verifyLoop` (part_001 lines 19-56) at one wait-point
event. `expected` is `s.chainID`. -/
def verifyStep (expected : Nat) (n : NodeModel) : VerifyEvent → NodeModel × LoopOutcome
  | VerifyEvent.stop => (n, LoopOutcome.exited)
  | VerifyEvent.tick none => (n, LoopOutcome.continued)
  | VerifyEvent.tick (some reported) =>
    if reported ≠ expected then
      if n.started then ({ n with state := SendOnlyNodeState.InvalidChainID }, LoopOutcome.continued)
      else (n, LoopOutcome.exited)
    else
      if n.started then ({ n with state := SendOnlyNodeState.Alive }, LoopOutcome.exited)
      else (n, LoopOutcome.exited)

/-- Run `verifyLoop` over a finite event list; the Boolean reports whether
the loop returned (`true`) or is still looping when the events run out. -/
def verifyLoopRun (expected : Nat) : NodeModel → List VerifyEvent → NodeModel × Bool
  | n, [] => (n, false)
  | n, e :: es =>
    match verifyStep expected n e with
    | (n', LoopOutcome.exited) => (n', true)
    | (n', LoopOutcome.continued) => verifyLoopRun expected n' es

/-! ### Whole-node transition system for the forward-only invariant

The events acting on one node's health state after dialing are the
`verifyLoop` iterations and the explicit shutdown. Shutdown is modelled from
the spec: "`Closed` (terminal, reached only via explicit shutdown)" — Close
stops the lifecycle (so `IfStarted` fails afterwards), waits for the loop,
and sets the state to `Closed`; the per-node state lock (§5) makes each
event atomic. -/

/-- An event acting on the node: one verify-loop wait-point event, or the
explicit shutdown. -/
inductive NodeEvent where
  | verify (e : VerifyEvent)
  | close
  deriving DecidableEq, Repr

/-- Node system state: health state, lifecycle flag, and whether the (single)
verify loop is still running. -/
structure NodeSys where
  state : SendOnlyNodeState
  started : Bool
  loopActive : Bool
  deriving DecidableEq, Repr

/-- The state in which `verifyLoop` is spawned: the node dialed successfully,
the initial identity verification failed, the node is started. -/
def initNodeSys : NodeSys := { state := SendOnlyNodeState.Dialed, started := true, loopActive := true }

/-- One atomic event of the node system. Verify events act only while the
loop is active; `close` stops the lifecycle, ends the loop and sets
`Closed`. -/
def nodeStep (expected : Nat) (s : NodeSys) : NodeEvent → NodeSys
  | NodeEvent.close => { state := SendOnlyNodeState.Closed, started := false, loopActive := false }
  | NodeEvent.verify e =>
    if s.loopActive then
      match verifyStep expected { state := s.state, started := s.started } e with
      | (n', LoopOutcome.exited) => { state := n'.state, started := s.started, loopActive := false }
      | (n', LoopOutcome.continued) => { s with state := n'.state }
    else s

/-- Run the node system over a list of events. -/
def nodeRun (expected : Nat) (s : NodeSys) : List NodeEvent → NodeSys
  | [] => s
  | e :: es => nodeRun expected (nodeStep expected s e) es

/-- The forward transition graph of spec §4.2 (reflexive): `Undialed →
Dialed → {InvalidChainID, Alive}`, `InvalidChainID → Alive`, and any
non-`Closed` state may move to `Unusable` or `Closed`; `Closed` has no
outgoing edge. -/
def forwardEdge (a b : SendOnlyNodeState) : Bool :=
  (a = b) ||
  (a = SendOnlyNodeState.Undialed && b = SendOnlyNodeState.Dialed) ||
  (a = SendOnlyNodeState.Dialed &&
    (b = SendOnlyNodeState.InvalidChainID || b = SendOnlyNodeState.Alive)) ||
  (a = SendOnlyNodeState.InvalidChainID && b = SendOnlyNodeState.Alive) ||
  (!(a = SendOnlyNodeState.Closed) &&
    (b = SendOnlyNodeState.Unusable || b = SendOnlyNodeState.Closed))

/-! ## Theorems -/

/-- C4 counterexample: the quoted input `"0xab"` is NOT a decode error — its
content `0xab` has even length 4, so it hex-decodes to the single byte 0xAB. -/
theorem extractRawBytes_0xab_decodes :
    ExtractRawBytes (strBytes "\"0xab\"") = Except.ok [0xAB] := rfl

/-- C4 (amended): `ExtractRawBytes` maps `""` to the empty byte sequence,
`"0xabcd"` to `{0xAB, 0xCD}`, `"0xab"` to the 1-byte sequence `{0xAB}`, and
returns a decode error for any input not surrounded by double quotes. -/
theorem extractRawBytes_spec :
    ExtractRawBytes (strBytes "\"\"") = Except.ok []
    ∧ ExtractRawBytes (strBytes "\"0xabcd\"") = Except.ok [0xAB, 0xCD]
    ∧ ExtractRawBytes (strBytes "\"0xab\"") = Except.ok [0xAB]
    ∧ ∀ input : List Nat,
        ¬ (2 ≤ input.length ∧ input.head? = some 34 ∧ input.getLast? = some 34) →
        ExtractRawBytes input = Except.error "unable to decode input" := by
  refine ⟨rfl, rfl, rfl, ?_⟩
  intro input h
  have hc : input.length < 2 ∨ input.head? ≠ some 34 ∨ input.getLast? ≠ some 34 := by
    by_contra hnc
    push_neg at hnc
    exact h ⟨by omega, hnc.2.1, hnc.2.2⟩
  unfold ExtractRawBytes
  rw [if_pos hc]

/-- C4 witness: a non-quoted input is rejected. -/
theorem extractRawBytes_spec_witness :
    ExtractRawBytes (strBytes "0xabcd") = Except.error "unable to decode input" :=
  extractRawBytes_spec.2.2.2 (strBytes "0xabcd") (by decide)

/-- C1 counterexample: with both task outputs located but the result output
malformed (`"0x1"`, content of odd length 3), the handler logs and returns
with no `SetError` — the Request remains `pending`, contradicting the claim
that every malformed output leads to the error-set state. -/
theorem handleOracleRequest_malformed_stays_pending :
    handlePipelineOutputs (Except.ok (strBytes "\"0x1\"")) (Except.ok (strBytes "\"\""))
      = HandleOutcome.abortNoUpdate "input is not a valid, non-empty hex string of even length"
    ∧ applyOutcome RequestState.pending
        (handlePipelineOutputs (Except.ok (strBytes "\"0x1\"")) (Except.ok (strBytes "\"\"")))
      = RequestState.pending := ⟨rfl, rfl⟩

/-- C1 (amended): after a successful pipeline run, a failure to LOCATE a task
output (in the order the handler checks them) triggers `SetError` with the
internal error kind, but a located output with a MALFORMED encoding only logs
the extraction failure and returns without updating the Request, which
therefore remains `pending`. -/
theorem handlePipelineOutputs_spec :
    (∀ e fe, handlePipelineOutputs (Except.error e) fe
        = HandleOutcome.setError ErrorKind.NODE_EXCEPTION (strBytes e))
    ∧ (∀ raw fe msg, ExtractRawBytes raw = Except.error msg →
        handlePipelineOutputs (Except.ok raw) fe = HandleOutcome.abortNoUpdate msg
        ∧ applyOutcome RequestState.pending (handlePipelineOutputs (Except.ok raw) fe)
            = RequestState.pending)
    ∧ (∀ raw res e, ExtractRawBytes raw = Except.ok res →
        handlePipelineOutputs (Except.ok raw) (Except.error e)
          = HandleOutcome.setError ErrorKind.NODE_EXCEPTION (strBytes e))
    ∧ (∀ raw res rawe msg, ExtractRawBytes raw = Except.ok res →
        ExtractRawBytes rawe = Except.error msg →
        handlePipelineOutputs (Except.ok raw) (Except.ok rawe)
            = HandleOutcome.abortNoUpdate msg
        ∧ applyOutcome RequestState.pending
            (handlePipelineOutputs (Except.ok raw) (Except.ok rawe))
            = RequestState.pending) := by
  refine ⟨fun e fe => rfl, ?_, ?_, ?_⟩
  · intro raw fe msg hm
    constructor
    · simp [handlePipelineOutputs, hm]
    · simp [handlePipelineOutputs, hm, applyOutcome]
  · intro raw res e hr
    simp [handlePipelineOutputs, hr]
  · intro raw res rawe msg hr hm
    constructor
    · simp [handlePipelineOutputs, hr, hm]
    · simp [handlePipelineOutputs, hr, hm, applyOutcome]

/-- C1 witness: concrete instances of each hypothesis-bearing conjunct. -/
theorem handlePipelineOutputs_spec_witness :
    (handlePipelineOutputs (Except.ok (strBytes "\"0x1\"")) (Except.ok (strBytes "\"\""))
        = HandleOutcome.abortNoUpdate "input is not a valid, non-empty hex string of even length"
      ∧ applyOutcome RequestState.pending
          (handlePipelineOutputs (Except.ok (strBytes "\"0x1\"")) (Except.ok (strBytes "\"\"")))
          = RequestState.pending)
    ∧ handlePipelineOutputs (Except.ok (strBytes "\"\"")) (Except.error "not found")
        = HandleOutcome.setError ErrorKind.NODE_EXCEPTION (strBytes "not found") :=
  ⟨handlePipelineOutputs_spec.2.1 (strBytes "\"0x1\"") (Except.ok (strBytes "\"\""))
      "input is not a valid, non-empty hex string of even length" rfl,
   handlePipelineOutputs_spec.2.2.1 (strBytes "\"\"") [] "not found" rfl⟩

/-- C2: a record the marker store reports as already consumed is skipped with
no handler and no state change; and redelivering a recognized request record
after a successful first handling (which marked it consumed) yields exactly
one pipeline run and one persisted Request row. -/
theorem dispatch_idempotent_under_redelivery :
    (∀ env s lb, WasAlreadyConsumed s.store lb = Except.ok true →
        processEvent env s lb = (DispatchAction.skippedConsumed, s))
    ∧ (∀ env s lb rid,
        lb.decoded = some (DecodedLog.request rid) →
        lb.bid ∉ s.store.failing →
        lb.bid ∉ s.store.consumed →
        env.createOk rid = true →
        env.pipelineOk rid = true →
        (processEvents env s [lb, lb]).1
            = [DispatchAction.spawnedRequest rid, DispatchAction.skippedConsumed]
        ∧ (processEvents env s [lb, lb]).2.requests = s.requests ++ [rid]
        ∧ (processEvents env s [lb, lb]).2.pipelineRuns = s.pipelineRuns + 1) := by
  constructor
  · intro env s lb h
    simp only [processEvent, h]
  · intro env s lb rid hdec hfail hcons hcreate hpipe
    have hwas : WasAlreadyConsumed s.store lb = Except.ok false := by
      simp [WasAlreadyConsumed, hfail, hcons]
    have hstep : processEvent env s lb
        = (DispatchAction.spawnedRequest rid,
           { s with requests := s.requests ++ [rid],
                    pipelineRuns := s.pipelineRuns + 1,
                    store := MarkConsumed s.store lb }) := by
      simp [processEvent, hwas, hdec, handleOracleRequestModel, hcreate, hpipe]
    have hwas2 : WasAlreadyConsumed (MarkConsumed s.store lb) lb = Except.ok true := by
      simp [WasAlreadyConsumed, MarkConsumed, hfail]
    have hstep2 : ∀ s' : ListenerState, s'.store = MarkConsumed s.store lb →
        processEvent env s' lb = (DispatchAction.skippedConsumed, s') := by
      intro s' hs'
      simp only [processEvent, hs', hwas2]
    refine ⟨?_, ?_, ?_⟩ <;>
      simp [processEvents, hstep, hstep2]

/-- C10: when `WasAlreadyConsumed` itself fails for a drained record, the
record is skipped for that delivery — no handler is spawned, the listener
state is unchanged — and the drain loop proceeds to the remaining records
as if the record had not been there. -/
theorem dispatch_store_error_skips :
    ∀ env s lb rest, WasAlreadyConsumed s.store lb = Except.error () →
      processEvents env s (lb :: rest)
        = (DispatchAction.skippedStoreError :: (processEvents env s rest).1,
           (processEvents env s rest).2) := by
  intro env s lb rest h
  simp only [processEvents, processEvent, h]

/-- C10 witness: a concrete store failure on broadcast 7 followed by a
recognized record 8 that is still handled. -/
theorem dispatch_store_error_skips_witness :
    processEvents
        { createOk := fun _ => true, pipelineOk := fun _ => true }
        { store := { consumed := [], failing := [7] },
          requests := [], confirmedIds := [], pipelineRuns := 0 }
        [{ bid := 7, decoded := some (DecodedLog.request 1) },
         { bid := 8, decoded := some (DecodedLog.request 2) }]
      = ([DispatchAction.skippedStoreError, DispatchAction.spawnedRequest 2],
         { store := { consumed := [8], failing := [7] },
           requests := [2], confirmedIds := [], pipelineRuns := 1 }) := by
  have h := dispatch_store_error_skips
    { createOk := fun _ => true, pipelineOk := fun _ => true }
    { store := { consumed := [], failing := [7] },
      requests := [], confirmedIds := [], pipelineRuns := 0 }
    { bid := 7, decoded := some (DecodedLog.request 1) }
    [{ bid := 8, decoded := some (DecodedLog.request 2) }]
    rfl
  rw [h]
  decide

/-- C2 witness: concrete instances for both conjuncts — an already-consumed
record is skipped unchanged; a fresh record delivered twice yields one run
and one Request row. -/
theorem dispatch_idempotent_under_redelivery_witness :
    processEvent
        { createOk := fun _ => true, pipelineOk := fun _ => true }
        { store := { consumed := [5], failing := [] },
          requests := [], confirmedIds := [], pipelineRuns := 0 }
        { bid := 5, decoded := some (DecodedLog.request 9) }
      = (DispatchAction.skippedConsumed,
         { store := { consumed := [5], failing := [] },
           requests := [], confirmedIds := [], pipelineRuns := 0 })
    ∧ (processEvents
        { createOk := fun _ => true, pipelineOk := fun _ => true }
        { store := { consumed := [], failing := [] },
          requests := [], confirmedIds := [], pipelineRuns := 0 }
        [{ bid := 5, decoded := some (DecodedLog.request 9) },
         { bid := 5, decoded := some (DecodedLog.request 9) }]).1
      = [DispatchAction.spawnedRequest 9, DispatchAction.skippedConsumed] :=
  ⟨dispatch_idempotent_under_redelivery.1
      { createOk := fun _ => true, pipelineOk := fun _ => true }
      { store := { consumed := [5], failing := [] },
        requests := [], confirmedIds := [], pipelineRuns := 0 }
      { bid := 5, decoded := some (DecodedLog.request 9) } rfl,
   (dispatch_idempotent_under_redelivery.2
      { createOk := fun _ => true, pipelineOk := fun _ => true }
      { store := { consumed := [], failing := [] },
        requests := [], confirmedIds := [], pipelineRuns := 0 }
      { bid := 5, decoded := some (DecodedLog.request 9) } 9
      rfl (by decide) (by decide) rfl rfl).1⟩

/-- C6: in each `verifyLoop` iteration, a query error changes no state and
the loop continues; a mismatched identity sets `InvalidChainID` when still
started (else the loop aborts unchanged) and continues; a matching identity
sets `Alive` when still started and the loop exits permanently — the
remaining events are never processed. -/
theorem verifyLoop_iteration_spec :
    (∀ (expected : Nat) (n : NodeModel) (es : List VerifyEvent),
        verifyStep expected n (VerifyEvent.tick none) = (n, LoopOutcome.continued)
        ∧ verifyLoopRun expected n (VerifyEvent.tick none :: es)
            = verifyLoopRun expected n es)
    ∧ (∀ (expected r : Nat) (n : NodeModel) (es : List VerifyEvent), r ≠ expected →
        (n.started = true →
          verifyStep expected n (VerifyEvent.tick (some r))
              = ({ n with state := SendOnlyNodeState.InvalidChainID }, LoopOutcome.continued)
          ∧ verifyLoopRun expected n (VerifyEvent.tick (some r) :: es)
              = verifyLoopRun expected { n with state := SendOnlyNodeState.InvalidChainID } es)
        ∧ (n.started = false →
          verifyLoopRun expected n (VerifyEvent.tick (some r) :: es) = (n, true)))
    ∧ (∀ (expected : Nat) (n : NodeModel) (es : List VerifyEvent), n.started = true →
        verifyLoopRun expected n (VerifyEvent.tick (some expected) :: es)
            = ({ n with state := SendOnlyNodeState.Alive }, true)) := by
  refine ⟨?_, ?_, ?_⟩
  · intro expected n es
    exact ⟨rfl, rfl⟩
  · intro expected r n es hne
    constructor
    · intro hs
      constructor
      · simp [verifyStep, hne, hs]
      · simp [verifyLoopRun, verifyStep, hne, hs]
    · intro hs
      simp [verifyLoopRun, verifyStep, hne, hs]
  · intro expected n es hs
    simp [verifyLoopRun, verifyStep, hs]

/-- C6 witness: expected identity 5; a query error, then reported identity 4
(mismatch, still started), then 5 (match) — with trailing events never
processed. -/
theorem verifyLoop_iteration_spec_witness :
    verifyStep 5 { state := SendOnlyNodeState.Dialed, started := true }
        (VerifyEvent.tick none)
      = ({ state := SendOnlyNodeState.Dialed, started := true }, LoopOutcome.continued)
    ∧ verifyStep 5 { state := SendOnlyNodeState.Dialed, started := true }
        (VerifyEvent.tick (some 4))
      = ({ state := SendOnlyNodeState.InvalidChainID, started := true }, LoopOutcome.continued)
    ∧ verifyLoopRun 5 { state := SendOnlyNodeState.InvalidChainID, started := true }
        (VerifyEvent.tick (some 5) :: [VerifyEvent.tick (some 4), VerifyEvent.stop])
      = ({ state := SendOnlyNodeState.Alive, started := true }, true) :=
  ⟨(verifyLoop_iteration_spec.1 5 { state := SendOnlyNodeState.Dialed, started := true } []).1,
   ((verifyLoop_iteration_spec.2.1 5 4 { state := SendOnlyNodeState.Dialed, started := true } []
      (by decide)).1 rfl).1,
   verifyLoop_iteration_spec.2.2 5 { state := SendOnlyNodeState.InvalidChainID, started := true }
      [VerifyEvent.tick (some 4), VerifyEvent.stop] rfl⟩

/-- Node system invariant: while the verify loop is active the health state
is `Dialed` or `InvalidChainID` (in particular it is not `Closed`). -/
def NodeSysInv (s : NodeSys) : Prop :=
  s.loopActive = true →
    s.state = SendOnlyNodeState.Dialed ∨ s.state = SendOnlyNodeState.InvalidChainID

theorem nodeSysInv_init : NodeSysInv initNodeSys := fun _ => Or.inl rfl

theorem nodeSysInv_step (expected : Nat) (s : NodeSys) (e : NodeEvent)
    (h : NodeSysInv s) : NodeSysInv (nodeStep expected s e) := by
  cases e with
  | close => intro hl; simp [nodeStep] at hl
  | verify ve =>
    by_cases hla : s.loopActive = true
    · cases ve with
      | stop => intro hl; simp [nodeStep, hla, verifyStep] at hl
      | tick reported =>
        cases reported with
        | none =>
          intro _
          simpa [nodeStep, hla, verifyStep] using h hla
        | some r =>
          by_cases hr : r ≠ expected
          · by_cases hs : s.started = true
            · intro _
              simp [nodeStep, hla, verifyStep, hr, hs]
            · intro hl
              simp [nodeStep, hla, verifyStep, hr, hs] at hl
          · by_cases hs : s.started = true
            · intro hl
              simp [nodeStep, hla, verifyStep, hr, hs] at hl
            · intro hl
              simp [nodeStep, hla, verifyStep, hr, hs] at hl
    · simpa [nodeStep, hla] using h

theorem nodeSysInv_run (expected : Nat) (es : List NodeEvent) :
    ∀ s : NodeSys, NodeSysInv s → NodeSysInv (nodeRun expected s es) := by
  induction es with
  | nil => intro s h; simpa [nodeRun] using h
  | cons e es ih =>
    intro s h
    simpa [nodeRun] using ih _ (nodeSysInv_step expected s e h)

theorem nodeStep_forward (expected : Nat) (s : NodeSys) (e : NodeEvent)
    (h : NodeSysInv s) :
    forwardEdge s.state (nodeStep expected s e).state = true
    ∧ (s.state = SendOnlyNodeState.Closed →
        (nodeStep expected s e).state = SendOnlyNodeState.Closed) := by
  cases e with
  | close =>
    constructor
    · cases hst : s.state <;> simp [nodeStep, forwardEdge]
    · intro _; simp [nodeStep]
  | verify ve =>
    by_cases hla : s.loopActive = true
    · have hstates := h hla
      constructor
      · cases ve with
        | stop =>
          rcases hstates with hst | hst <;> simp [nodeStep, hla, verifyStep, hst, forwardEdge]
        | tick reported =>
          cases reported with
          | none =>
            rcases hstates with hst | hst <;> simp [nodeStep, hla, verifyStep, hst, forwardEdge]
          | some r =>
            by_cases hr : r ≠ expected <;> by_cases hs : s.started = true <;>
              rcases hstates with hst | hst <;>
              simp [nodeStep, hla, verifyStep, hr, hs, hst, forwardEdge]
      · intro hcl
        rcases hstates with hst | hst <;> rw [hst] at hcl <;> exact absurd hcl (by simp)
    · constructor
      · simp [nodeStep, hla, forwardEdge]
      · intro hcl; simpa [nodeStep, hla] using hcl

/-- C5: along every reachable execution of one node (verify-loop iterations
interleaved with shutdown, starting from the post-dial state in which the
verify loop is spawned), every transition follows the forward transition
graph, and `Closed` has no outgoing transitions: once the state is `Closed`,
no later event changes it. -/
theorem node_state_forward_only :
    ∀ (expected : Nat) (es : List NodeEvent) (e : NodeEvent),
      forwardEdge (nodeRun expected initNodeSys es).state
          (nodeStep expected (nodeRun expected initNodeSys es) e).state = true
      ∧ ((nodeRun expected initNodeSys es).state = SendOnlyNodeState.Closed →
          (nodeStep expected (nodeRun expected initNodeSys es) e).state
            = SendOnlyNodeState.Closed) := by
  intro expected es e
  exact nodeStep_forward expected (nodeRun expected initNodeSys es) e
    (nodeSysInv_run expected es initNodeSys nodeSysInv_init)

/-- C5 witness: after an explicit shutdown the state is `Closed` and a
further verify tick leaves it `Closed`. -/
theorem node_state_forward_only_witness :
    forwardEdge (nodeRun 5 initNodeSys [NodeEvent.close]).state
        (nodeStep 5 (nodeRun 5 initNodeSys [NodeEvent.close])
          (NodeEvent.verify (VerifyEvent.tick (some 4)))).state = true
    ∧ (nodeStep 5 (nodeRun 5 initNodeSys [NodeEvent.close])
          (NodeEvent.verify (VerifyEvent.tick (some 4)))).state
        = SendOnlyNodeState.Closed :=
  ⟨(node_state_forward_only 5 [NodeEvent.close]
      (NodeEvent.verify (VerifyEvent.tick (some 4)))).1,
   (node_state_forward_only 5 [NodeEvent.close]
      (NodeEvent.verify (VerifyEvent.tick (some 4)))).2 rfl⟩

theorem lookup_wf (l : List (String × ChainObj))
    (hwf : ∀ kv ∈ l, kv.1 = toString kv.2.id) :
    ∀ k c, l.lookup k = some c → k = toString c.id := by
  induction l with
  | nil => intro k c h; simp [List.lookup] at h
  | cons kv t ih =>
    intro k c h
    rw [List.lookup] at h
    by_cases hk : k = kv.1
    · have hb : (k == kv.1) = true := beq_iff_eq.mpr hk
      simp only [hb] at h
      cases h
      exact hk.trans (hwf kv (List.mem_cons_self kv t))
    · have hb : (k == kv.1) = false := beq_eq_false_iff_ne.mpr hk
      simp only [hb] at h
      exact ih (fun p hp => hwf p (List.mem_cons_of_mem kv hp)) k c h

theorem loadChainsAux_wf (dflt : Option Nat) :
    ∀ (dbchains : List DBChain) (acc : List (String × ChainObj)) (errs : List String)
      (cs : ChainSet) (errs' : List String),
      (∀ kv ∈ acc, kv.1 = toString kv.2.id) →
      loadChainsAux dflt acc errs dbchains = LoadResult.made cs errs' →
      cs.WF := by
  intro dbchains
  induction dbchains with
  | nil =>
    intro acc errs cs errs' hacc h
    rw [loadChainsAux] at h
    cases h
    exact hacc
  | cons db rest ih =>
    intro acc errs cs errs' hacc h
    rw [loadChainsAux] at h
    cases hnc : newChain db with
    | error e =>
      cases e with
      | noPrimaryNode => rw [hnc] at h; exact ih acc errs cs errs' hacc h
      | other m => rw [hnc] at h; exact ih acc _ cs errs' hacc h
    | ok c =>
      rw [hnc] at h
      by_cases hdup : (acc.lookup (toString db.id)).isSome
      · simp [hdup] at h
      · simp [hdup] at h
        refine ih _ errs cs errs' ?_ h
        intro kv hkv
        rcases List.mem_append.mp hkv with hmem | hmem
        · exact hacc kv hmem
        · have hkv' : kv = (toString db.id, c) := List.mem_singleton.mp hmem
          have hcid : c.id = db.id := by
            rw [newChain] at hnc
            cases hce : db.constructErr with
            | some m => rw [hce] at hnc; cases hnc
            | none =>
              rw [hce] at hnc
              by_cases hp : db.hasPrimaryNode = true
              · rw [if_pos hp] at hnc; cases hnc; rfl
              · rw [if_neg hp] at hnc; cases hnc
          rw [hkv', hcid]

/-- C7: after a load, `Get` on every registered id returns a Chain whose
identifier string equals the id's string form; `Get` on an absent id fails
with `NotFound`; and `Get` with an unspecified (nil) id behaves as
`Default`. -/
theorem chainSet_get_spec :
    ∀ (dflt : Option Nat) (dbchains : List DBChain) (cs : ChainSet) (errs : List String),
      NewChainSet dflt dbchains = LoadResult.made cs errs →
      (∀ i : Nat, (cs.chains.lookup (toString i)).isSome →
          ∃ c, cs.Get (some i) = Except.ok c ∧ toString c.id = toString i)
      ∧ (∀ i : Nat, cs.chains.lookup (toString i) = none →
          cs.Get (some i) = Except.error (ChainSetError.NotFound i))
      ∧ cs.Get none = cs.Default := by
  intro dflt dbchains cs errs hload
  have hwf : cs.WF := loadChainsAux_wf dflt dbchains [] [] cs errs (by simp) hload
  refine ⟨?_, ?_, rfl⟩
  · intro i hsome
    rcases Option.isSome_iff_exists.mp hsome with ⟨c, hc⟩
    refine ⟨c, ?_, (lookup_wf cs.chains hwf _ c hc).symm⟩
    simp [ChainSet.Get, getByID, hc]
  · intro i hnone
    simp [ChainSet.Get, getByID, hnone]

/-- C7 witness: a two-chain load; id 42 is found with matching identifier
string, id 7 is `NotFound`, and `Get` of nil equals `Default`. -/
theorem chainSet_get_spec_witness :
    (∃ c, ChainSet.Get { defaultID := some 42, chains := [("42", { id := 42 }), ("3", { id := 3 })] } (some 42) = Except.ok c ∧ toString c.id = toString 42)
    ∧ ChainSet.Get { defaultID := some 42, chains := [("42", { id := 42 }), ("3", { id := 3 })] } (some 7) = Except.error (ChainSetError.NotFound 7) := by
  have h := chainSet_get_spec (some 42)
    [{ id := 42, hasPrimaryNode := true, constructErr := none },
     { id := 3, hasPrimaryNode := true, constructErr := none }]
    { defaultID := some 42, chains := [("42", { id := 42 }), ("3", { id := 3 })] }
    [] (by decide)
  exact ⟨h.1 42 (by decide), h.2.1 7 (by decide)⟩

/-- C8: `Default` on an empty registry fails with `NoChains`; on a non-empty
registry without a configured default identifier it fails with `NoDefault`;
otherwise it behaves as `Get` of the default identifier. -/
theorem chainSet_default_spec :
    ∀ cs : ChainSet,
      (cs.chains = [] → cs.Default = Except.error ChainSetError.NoChains)
      ∧ (cs.chains ≠ [] → cs.defaultID = none →
          cs.Default = Except.error ChainSetError.NoDefault)
      ∧ (∀ d : Nat, cs.chains ≠ [] → cs.defaultID = some d →
          cs.Default = cs.Get (some d)) := by
  intro cs
  have hlen : cs.chains ≠ [] → ¬ cs.chains.length = 0 := by
    intro h hc
    exact h (List.length_eq_zero.mp hc)
  refine ⟨?_, ?_, ?_⟩
  · intro h; simp [ChainSet.Default, h]
  · intro h hd
    rw [ChainSet.Default, if_neg (hlen h), hd]
  · intro d h hd
    rw [ChainSet.Default, if_neg (hlen h), hd]
    rfl

/-- C8 witness: the three branches at concrete registries. -/
theorem chainSet_default_spec_witness :
    ChainSet.Default { defaultID := some 1, chains := [] }
      = Except.error ChainSetError.NoChains
    ∧ ChainSet.Default { defaultID := none, chains := [("3", { id := 3 })] }
      = Except.error ChainSetError.NoDefault
    ∧ ChainSet.Default { defaultID := some 3, chains := [("3", { id := 3 })] }
      = ChainSet.Get { defaultID := some 3, chains := [("3", { id := 3 })] } (some 3) :=
  ⟨(chainSet_default_spec { defaultID := some 1, chains := [] }).1 rfl,
   (chainSet_default_spec { defaultID := none, chains := [("3", { id := 3 })] }).2.1
      (by decide) rfl,
   (chainSet_default_spec { defaultID := some 3, chains := [("3", { id := 3 })] }).2.2 3
      (by decide) rfl⟩

theorem lookup_filter_self (l : List (String × ChainObj)) (cid : String) :
    (l.filter (fun kv => kv.1 != cid)).lookup cid = none := by
  induction l with
  | nil => rfl
  | cons kv t ih =>
    by_cases h : kv.1 = cid
    · simpa [List.filter_cons, h] using ih
    · have hne : (kv.1 != cid) = true := by simpa using h
      have hne' : (cid == kv.1) = false := by
        simp [beq_iff_eq]
        exact fun hc => h hc.symm
      simp [List.filter_cons, hne, List.lookup, hne', ih]

/-- C9: `Configure` with a registered chain and `enabled = false` removes the
chain from the registry and invokes its Close exactly once; with
present+enabled or absent+disabled the registry is structurally unchanged
while the persisted configuration is still updated. -/
theorem configure_reconcile_spec :
    ∀ (cs : ChainSet) (id : Nat) (db : DBChain) (startOk : Bool) (chain : ChainObj),
      (getByID cs id = Except.ok chain →
        (Configure cs id false db true true startOk).closedChains = [chain]
        ∧ (Configure cs id false db true true startOk).cs.chains.lookup (toString id) = none
        ∧ (Configure cs id false db true true startOk).dbUpdated = true
        ∧ (Configure cs id false db true true startOk).outcome = ConfigureOutcome.ok)
      ∧ (getByID cs id = Except.ok chain →
        Configure cs id true db true true startOk
          = { cs := cs, closedChains := [], dbUpdated := true,
              outcome := ConfigureOutcome.ok })
      ∧ (getByID cs id = Except.error (ChainSetError.NotFound id) →
        Configure cs id false db true true startOk
          = { cs := cs, closedChains := [], dbUpdated := true,
              outcome := ConfigureOutcome.ok }) := by
  intro cs id db startOk chain
  refine ⟨?_, ?_, ?_⟩
  · intro h
    refine ⟨?_, ?_, ?_, ?_⟩ <;>
      simp [Configure, h, removeChain, lookup_filter_self]
  · intro h
    simp [Configure, h]
  · intro h
    simp [Configure, h]

/-- C9 witness: a registry holding chain 42; disabling removes and closes it
once, re-enabling while present and disabling while absent change nothing. -/
theorem configure_reconcile_spec_witness :
    (Configure { defaultID := some 42, chains := [("42", { id := 42 })] } 42 false
        { id := 42, hasPrimaryNode := true, constructErr := none } true true true).closedChains
      = [{ id := 42 }]
    ∧ (Configure { defaultID := some 42, chains := [("42", { id := 42 })] } 42 false
        { id := 42, hasPrimaryNode := true, constructErr := none }
        true true true).cs.chains.lookup (toString 42) = none
    ∧ Configure { defaultID := some 42, chains := [("42", { id := 42 })] } 42 true
        { id := 42, hasPrimaryNode := true, constructErr := none } true true true
      = { cs := { defaultID := some 42, chains := [("42", { id := 42 })] },
          closedChains := [], dbUpdated := true, outcome := ConfigureOutcome.ok }
    ∧ Configure { defaultID := some 42, chains := [] } 42 false
        { id := 42, hasPrimaryNode := true, constructErr := none } true true true
      = { cs := { defaultID := some 42, chains := [] },
          closedChains := [], dbUpdated := true, outcome := ConfigureOutcome.ok } := by
  have h := configure_reconcile_spec { defaultID := some 42, chains := [("42", { id := 42 })] }
    42 { id := 42, hasPrimaryNode := true, constructErr := none } true { id := 42 }
  have h2 := configure_reconcile_spec { defaultID := some 42, chains := [] }
    42 { id := 42, hasPrimaryNode := true, constructErr := none } true { id := 42 }
  exact ⟨(h.1 rfl).1, (h.1 rfl).2.1, h.2.1 rfl, h2.2.2 rfl⟩

/-- C3: evaluation at the failing input. With chain 42 absent and enabled,
and chain construction failing with `NoPrimaryNode`, `Configure` does NOT
skip the candidate chain: after logging the warning it falls through to
`chain.Start()` with the nil chain (`nilChainStart`), unlike `NewChainSet`,
which for the same configuration skips the chain and returns an empty
registry with no fatal error. -/
theorem configure_noPrimaryNode_falls_through :
    (Configure { defaultID := some 1, chains := [] } 42 true
        { id := 42, hasPrimaryNode := false, constructErr := none } true true true).outcome
      = ConfigureOutcome.nilChainStart "42"
    ∧ NewChainSet (some 1) [{ id := 42, hasPrimaryNode := false, constructErr := none }]
      = LoadResult.made { defaultID := some 1, chains := [] } [] := ⟨rfl, rfl⟩

end Chainlink
